import Mathlib

/-!
Verification of the Calorie Calculator's record store and UI navigation logic.

The development shallowly embeds the C++ sources:
* `data_manager.cpp` (`DataManager::loadData`, `DataManager::saveData`,
  `DataManager::getRecord`, `DataManager::setDailyGoals`),
* `ui_manager.cpp` (`UIManager::processInput`, `UIManager::processCalendarInput`,
  the inline field-capture loops of `handleEditFood`, `handleAddCustomFood`,
  `handleAddFromTemplate`, `handleStartGoals`, `handleResetGoals`).

C++ `std::string` values are modelled as `List Char`; C++ `int` as `Int`
(value semantics; the 32-bit range only matters where the code can observe it,
namely in `std::stoi` / `operator>>`, which check the range explicitly).
C++ built-in `/` and `%` on `int` truncate toward zero, so they are modelled
by `Int.tdiv`; the `%` occurrences in the calendar code act on provably
nonnegative operands, where `Int.emod` agrees with the C++ operator.
-/

/-- Model of `std::isspace` for the default C locale, as used by `std::stoi` and
`operator>>` when skipping leading whitespace. -/
def isSpaceCxx (c : Char) : Bool :=
  c = ' ' || c = '\t' || c = '\n' || c = '\x0b' || c = '\x0c' || c = '\r'

/-- Numeric value of a decimal digit character. -/
def digitVal (c : Char) : Nat := c.toNat - 48

/-- Value of a list of decimal digit characters, most significant first. -/
def digitsToNat (ds : List Char) : Nat :=
  ds.foldl (fun acc c => 10 * acc + digitVal c) 0

/-- Model of `std::stoi` (base 10): skip leading whitespace, read an optional
sign and a maximal run of decimal digits.  `none` models a thrown exception:
`std::invalid_argument` when no digits are found, `std::out_of_range` when the
value does not fit in a 32-bit `int`. -/
def stoi (s : List Char) : Option Int :=
  let t := s.dropWhile isSpaceCxx
  let su : Bool × List Char :=
    match t with
    | '-' :: rest => (true, rest)
    | '+' :: rest => (false, rest)
    | _ => (false, t)
  let ds := su.2.takeWhile Char.isDigit
  if ds.isEmpty then none
  else
    let v : Int := if su.1 then -(digitsToNat ds : Int) else (digitsToNat ds : Int)
    if v < -2147483648 ∨ 2147483647 < v then none else some v

/-- Splitting on `'|'`, keeping all (also empty) fields; helper for
`getlineTokens`. -/
def splitPipe : List Char → List (List Char)
  | [] => [[]]
  | c :: rest =>
    if c = '|' then [] :: splitPipe rest
    else
      match splitPipe rest with
      | [] => [[c]]
      | t :: ts => (c :: t) :: ts

/-- The token sequence produced by repeated `std::getline(iss, token, '|')` on
a string stream holding `s`: like a plain split on `'|'`, except that an empty
stream yields no token and a trailing delimiter does not yield a final empty
token (the last `getline` hits end-of-stream at once and fails). -/
def getlineTokens (s : List Char) : List (List Char) :=
  if s = [] then []
  else if s.getLast? = some '|' then (splitPipe s).dropLast
  else splitPipe s

/-- The `struct Food` from `food.h`: name plus nutritional values and portion
size.  The default constructor zero-initialises every field. -/
structure Food where
  name : List Char
  calories : Int
  carbs : Int
  protein : Int
  fat : Int
  grams : Int
deriving DecidableEq

/-- The `struct DailyGoals` from `data_manager.h`. -/
structure DailyGoals where
  calories : Int
  carbs : Int
  protein : Int
  fat : Int
deriving DecidableEq

/-- The `struct DailyRecord` from `data_manager.h`: a date with its ordered food
entries. -/
structure DailyRecord where
  date : List Char
  foods : List Food
deriving DecidableEq

/-- The persistent state owned by `DataManager`: the goals and the record
vector. -/
structure DataState where
  dailyGoals : DailyGoals
  records : List DailyRecord
deriving DecidableEq

/-- The state of `DataManager` right after its constructor ran: default goals
`{2000, 250, 150, 70}` and no records. -/
def initialDataState : DataState := ⟨⟨2000, 250, 150, 70⟩, []⟩

/-- Model of `DataManager::getRecord`: find the first record with the given date, or
append a fresh empty record for it.  Returns the updated vector together with
the index of the found or created record (the C++ code returns a reference). -/
def getRecordIdx (records : List DailyRecord) (date : List Char) :
    List DailyRecord × Nat :=
  match records.findIdx? (fun r => decide (r.date = date)) with
  | some i => (records, i)
  | none => (records ++ [⟨date, []⟩], records.length)

/-- Replace the `i`-th element of a list by `f` of it (no-op when out of
range); models in-place mutation through a reference into the vector. -/
def modifyAt (l : List DailyRecord) (i : Nat) (f : DailyRecord → DailyRecord) :
    List DailyRecord :=
  match l, i with
  | [], _ => []
  | x :: xs, 0 => f x :: xs
  | x :: xs, Nat.succ j => x :: modifyAt xs j f

/-- Model of `DataManager::setDailyGoals`. -/
def setDailyGoals (st : DataState) (g : DailyGoals) : DataState :=
  { st with dailyGoals := g }

/-- Adding a food through the public API:
`dataManager.getRecord(date).foods.push_back(food)` as done by the UI
handlers. -/
def addFoodToDate (st : DataState) (date : List Char) (f : Food) : DataState :=
  let ri := getRecordIdx st.records date
  { st with
    records := modifyAt ri.1 ri.2 (fun r => { r with foods := r.foods ++ [f] }) }

/-- One numeric field of a `FOOD:` line in `DataManager::loadData`: when token
`i` exists it is fed to `std::stoi` (whose failure, `none`, aborts the load);
when it does not exist the field keeps its default from the `Food`
constructor. -/
def setNumField (ts : List (List Char)) (i : Nat) (upd : Food → Int → Food)
    (f : Food) : Option Food :=
  match ts.get? i with
  | none => some f
  | some t => (stoi t).map (upd f)

/-- The `FOOD:` branch of `DataManager::loadData`: tokenize the remainder of
the line on `'|'` and fill the fields of a default-constructed `Food` in
order (name, calories, carbs, protein, fat, grams).  `none` models an
uncaught `std::stoi` exception. -/
def parseFood (foodStr : List Char) : Option Food := do
  let ts := getlineTokens foodStr
  let f0 : Food := ⟨[], 0, 0, 0, 0, 0⟩
  let f1 := match ts.get? 0 with
    | some t => { f0 with name := t }
    | none => f0
  let f2 ← setNumField ts 1 (fun f v => { f with calories := v }) f1
  let f3 ← setNumField ts 2 (fun f v => { f with carbs := v }) f2
  let f4 ← setNumField ts 3 (fun f v => { f with protein := v }) f3
  let f5 ← setNumField ts 4 (fun f v => { f with fat := v }) f4
  setNumField ts 5 (fun f v => { f with grams := v }) f5

/-- Result of one `operator>>` extraction of an `int` from a string stream:
the value written to the target (C++11 writes `0` on a failed parse and the
clamped bound on overflow), whether the stream is still good, and the unread
remainder. -/
structure ExtractRes where
  value : Int
  ok : Bool
  rest : List Char
deriving DecidableEq

/-- Model of `iss >> n` for `int n`: skip whitespace, read optional sign and a maximal
digit run; on no digits fail with value `0`; on overflow fail with the
clamped `int` bound. -/
def extractInt (s : List Char) : ExtractRes :=
  let t := s.dropWhile isSpaceCxx
  let su : Bool × List Char :=
    match t with
    | '-' :: rest => (true, rest)
    | '+' :: rest => (false, rest)
    | _ => (false, t)
  let ds := su.2.takeWhile Char.isDigit
  let rest := su.2.dropWhile Char.isDigit
  if ds.isEmpty then ⟨0, false, rest⟩
  else
    let v : Int := if su.1 then -(digitsToNat ds : Int) else (digitsToNat ds : Int)
    if 2147483647 < v then ⟨2147483647, false, rest⟩
    else if v < -2147483648 then ⟨-2147483648, false, rest⟩
    else ⟨v, true, rest⟩

/-- The `DAILY_GOALS:` branch of `DataManager::loadData`:
`iss >> calories >> carbs >> protein >> fat` on the comma-to-space rewritten
remainder.  A failed extraction writes its fallback value and stops the
stream, leaving the later fields untouched. -/
def readGoals (s : List Char) (g : DailyGoals) : DailyGoals :=
  let r1 := extractInt s
  let g1 := { g with calories := r1.value }
  if !r1.ok then g1 else
  let r2 := extractInt r1.rest
  let g2 := { g1 with carbs := r2.value }
  if !r2.ok then g2 else
  let r3 := extractInt r2.rest
  let g3 := { g2 with protein := r3.value }
  if !r3.ok then g3 else
  let r4 := extractInt r3.rest
  { g3 with fat := r4.value }

/-- Loop state of `DataManager::loadData`: goals, records, and the index of
the record the `currentRecord` pointer designates (if any). -/
structure LoadSt where
  dailyGoals : DailyGoals
  records : List DailyRecord
  current : Option Nat
deriving DecidableEq

/-- The line loop of `DataManager::loadData`.  `DAILY_GOALS:` lines update the
goals, `DATE:` lines select (or create) the current record with leading
spaces/tabs trimmed, `FOOD:` lines are parsed and appended to the current
record when one exists and are dropped otherwise; all other lines are
ignored.  `none` models an uncaught `std::stoi` exception aborting the
load. -/
def loadLines : List (List Char) → LoadSt → Option LoadSt
  | [], st => some st
  | line :: rest, st =>
    if List.isPrefixOf "DAILY_GOALS:".toList line then
      let goalsStr := (line.drop 12).map (fun c => if c = ',' then ' ' else c)
      loadLines rest { st with dailyGoals := readGoals goalsStr st.dailyGoals }
    else if List.isPrefixOf "DATE:".toList line then
      let dateStr := (line.drop 5).dropWhile (fun c => c = ' ' || c = '\t')
      let ri := getRecordIdx st.records dateStr
      loadLines rest { st with records := ri.1, current := some ri.2 }
    else if List.isPrefixOf "FOOD:".toList line then
      match st.current with
      | some i =>
        match parseFood (line.drop 5) with
        | some food =>
          loadLines rest
            { st with
              records := modifyAt st.records i
                (fun r => { r with foods := r.foods ++ [food] }) }
        | none => none
      | none => loadLines rest st
    else loadLines rest st

/-- Model of `DataManager::loadData` on a store file holding the given lines, starting
from the constructor state (default goals, no records, no current record). -/
def loadData (lines : List (List Char)) : Option DataState :=
  (loadLines lines ⟨⟨2000, 250, 150, 70⟩, [], none⟩).map
    (fun st => ⟨st.dailyGoals, st.records⟩)

/-- Model of `operator<<` for `int`: an optional minus sign followed by the decimal
digits. -/
def intToChars (i : Int) : List Char :=
  if i < 0 then '-' :: Nat.toDigits 10 i.natAbs else Nat.toDigits 10 i.toNat

/-- One `FOOD:` line as written by `DataManager::saveData`. -/
def foodLine (f : Food) : List Char :=
  "FOOD: ".toList ++ f.name ++ ['|'] ++ intToChars f.calories ++ ['|'] ++
    intToChars f.carbs ++ ['|'] ++ intToChars f.protein ++ ['|'] ++
    intToChars f.fat ++ ['|'] ++ intToChars f.grams

/-- Model of `DataManager::saveData`: the `DAILY_GOALS:` line followed by, for each
record, its `DATE:` line and one `FOOD:` line per food. -/
def saveLines (st : DataState) : List (List Char) :=
  ("DAILY_GOALS: ".toList ++ intToChars st.dailyGoals.calories ++ [','] ++
      intToChars st.dailyGoals.carbs ++ [','] ++
      intToChars st.dailyGoals.protein ++ [','] ++
      intToChars st.dailyGoals.fat) ::
    (st.records.map
      (fun r => ("DATE: ".toList ++ r.date) :: r.foods.map foodLine)).flatten

/-- The constant `maxNameLen` from `ui_manager.cpp`: display width limit for food names. -/
def maxNameLen : Nat := 21

/-- The main-view state acted on by `UIManager::processInput`: the current
day's food list, `selectedIndex`, `foodScrollOffset`, and the current date
modelled as a day count (`changeDateByOffset` shifts the `DD/MM/YYYY` string
by the offset in days via `mktime` normalisation). -/
structure MainState where
  foods : List Food
  selectedIndex : Int
  foodScrollOffset : Int
  epochDay : Int
deriving DecidableEq

/-- The `STATE_MAIN_MENU` branch of `UIManager::processInput` for the keys
`j` (advance), `k` (retreat), `x` (delete focused food), `h`/`l` (previous /
next day).  `menuCount` is `menuItems.size()` (4 in the program) and
`visibleSlots` the clamped `CONSOLE_HEIGHT - 4 - borderY` slot count.  The
Enter and `q` keys leave the main view (sub-screens, quit) and are outside
this step function. -/
def processInput (menuCount visibleSlots : Int) (key : Char) (s : MainState) :
    MainState :=
  let foodCount : Int := s.foods.length
  let totalSelectable : Int := menuCount + foodCount
  if key = 'j' then
    let idx :=
      if totalSelectable > 0 then
        if s.selectedIndex < totalSelectable - 1 then s.selectedIndex + 1 else 0
      else s.selectedIndex
    let off1 :=
      if idx ≥ menuCount then
        let foodIndex := idx - menuCount
        if foodIndex ≥ visibleSlots + s.foodScrollOffset then
          foodIndex - visibleSlots + 1
        else s.foodScrollOffset
      else s.foodScrollOffset
    let off2 := if idx < menuCount then 0 else off1
    { s with selectedIndex := idx, foodScrollOffset := off2 }
  else if key = 'k' then
    let idx :=
      if totalSelectable > 0 then
        if s.selectedIndex > 0 then s.selectedIndex - 1 else totalSelectable - 1
      else s.selectedIndex
    let off1 :=
      if idx ≥ menuCount then
        let foodIndex := idx - menuCount
        let offA :=
          if foodIndex < s.foodScrollOffset then foodIndex
          else s.foodScrollOffset
        if idx = totalSelectable - 1 then
          if foodCount > visibleSlots then foodCount - visibleSlots else 0
        else offA
      else s.foodScrollOffset
    let off2 := if idx < menuCount then 0 else off1
    { s with selectedIndex := idx, foodScrollOffset := off2 }
  else if key = 'x' then
    if s.selectedIndex ≥ menuCount then
      let foodIndex := s.selectedIndex - menuCount
      if 0 ≤ foodIndex ∧ foodIndex < foodCount then
        let foods2 := s.foods.eraseIdx foodIndex.toNat
        let idx2 :=
          if s.selectedIndex ≥ menuCount + (foods2.length : Int) then
            menuCount + (foods2.length : Int) - 1
          else s.selectedIndex
        { s with foods := foods2, selectedIndex := idx2 }
      else s
    else s
  else if key = 'h' then
    { s with epochDay := s.epochDay - 1, selectedIndex := 0,
             foodScrollOffset := 0 }
  else if key = 'l' then
    { s with epochDay := s.epochDay + 1, selectedIndex := 0,
             foodScrollOffset := 0 }
  else s

/-- Folding a key sequence through `UIManager::processInput`. -/
def navigate (menuCount visibleSlots : Int) (keys : List Char)
    (s : MainState) : MainState :=
  keys.foldl (fun st k => processInput menuCount visibleSlots k st) s

/-- The value `col` in `UIManager::processCalendarInput`:
`(startWeekday + selectedCalendarDay - 1) % 7`.  Both operands are
nonnegative in every reachable state, where `Int.emod` and the C++ `%`
agree. -/
def calendarCol (startWeekday selectedDay : Int) : Int :=
  (startWeekday + selectedDay - 1) % 7

/-- The renderer's grid row of a day: the grid places day `d` at row
`(startWeekday + d - 1) / 7` below the header (nonnegative operands). -/
def calendarRow (startWeekday selectedDay : Int) : Int :=
  (startWeekday + selectedDay - 1) / 7

/-- The `h` (left) branch of `UIManager::processCalendarInput`: move one day
back only when the day is above 1 and the cursor is not in the first grid
column. -/
def calendarLeft (startWeekday selectedDay : Int) : Int :=
  let col := calendarCol startWeekday selectedDay
  if selectedDay > 1 ∧ col > 0 then selectedDay - 1 else selectedDay

/-- The `l` (right) branch of `UIManager::processCalendarInput`: move one day
forward only when the cursor is not in the last grid column and the day is
below the month's last day. -/
def calendarRight (startWeekday daysInMonth selectedDay : Int) : Int :=
  let col := calendarCol startWeekday selectedDay
  if col < 6 ∧ selectedDay < daysInMonth then selectedDay + 1 else selectedDay

/-- Template instantiation in `UIManager::handleAddFromTemplate`: copy the
template, set the entered grams, and scale every nutrient by
`(template value * grams) / 100` with C++ truncating integer division. -/
def instantiateTemplate (selectedTemplate : Food) (grams : Int) : Food :=
  { selectedTemplate with
    grams := grams,
    calories := Int.tdiv (selectedTemplate.calories * grams) 100,
    carbs := Int.tdiv (selectedTemplate.carbs * grams) 100,
    protein := Int.tdiv (selectedTemplate.protein * grams) 100,
    fat := Int.tdiv (selectedTemplate.fat * grams) 100 }

/-- Numeric field capture in `UIManager::handleEditFood`: empty input is
ignored; otherwise `std::stoi` is tried and a conversion error is swallowed,
keeping the old value. -/
def editFoodNumericCapture (old : Int) (input : List Char) : Int :=
  if input = [] then old
  else
    match stoi input with
    | some v => v
    | none => old

/-- Numeric field capture in `UIManager::handleAddCustomFood` (same policy as
the edit form at its own code site). -/
def addCustomNumericCapture (old : Int) (input : List Char) : Int :=
  if input = [] then old
  else
    match stoi input with
    | some v => v
    | none => old

/-- Numeric field capture in the create-template loop of
`UIManager::handleAddFromTemplate`: no empty-input guard; `std::stoi` errors
(also on empty input) are swallowed, keeping the old value. -/
def createTemplateNumericCapture (old : Int) (input : List Char) : Int :=
  match stoi input with
  | some v => v
  | none => old

/-- Numeric field capture in `UIManager::handleResetGoals`: empty input is
ignored; a conversion error keeps the existing value. -/
def resetGoalsNumericCapture (old : Int) (input : List Char) : Int :=
  if input = [] then old
  else
    match stoi input with
    | some v => v
    | none => old

/-- Numeric field capture in `UIManager::handleStartGoals`: empty input sets
the field to `0`, and a conversion error also sets the field to `0`. -/
def startGoalsNumericCapture (old : Int) (input : List Char) : Int :=
  if input = [] then 0
  else
    match stoi input with
    | some _v => _v
    | none => 0

/-- Name field capture in `UIManager::handleEditFood`: empty input is
ignored; longer input is truncated to `maxNameLen` characters. -/
def editFoodNameCapture (old input : List Char) : List Char :=
  if input = [] then old
  else if maxNameLen < input.length then input.take maxNameLen
  else input

/-- Name field capture in `UIManager::handleAddCustomFood` (same policy as
the edit form at its own code site). -/
def addCustomNameCapture (old input : List Char) : List Char :=
  if input = [] then old
  else if maxNameLen < input.length then input.take maxNameLen
  else input

/-- Name field capture in the create-template loop of
`UIManager::handleAddFromTemplate`: `tplName = input;` with no truncation and
no empty-input guard. -/
def createTemplateNameCapture (old input : List Char) : List Char := input

/-- A store reachable through the public mutation API alone: default goals
and one food named `Apple` logged for `01/01/2025`. -/
def roundTripDemoStore : DataState :=
  addFoodToDate initialDataState "01/01/2025".toList
    ⟨"Apple".toList, 52, 14, 0, 0, 100⟩

/-- A concrete main-view state with one logged food and a fixed action item
focused. -/
def demoMainState : MainState := ⟨[⟨"A".toList, 1, 2, 3, 4, 5⟩], 2, 0, 0⟩

/-- A concrete main-view state with three logged foods, all action items and
foods selectable, focus on index 2, scroll offset 0. -/
def demoScrollState : MainState :=
  ⟨[⟨"A".toList, 1, 2, 3, 4, 5⟩, ⟨"B".toList, 1, 2, 3, 4, 5⟩,
    ⟨"C".toList, 1, 2, 3, 4, 5⟩], 2, 0, 0⟩

/-- C1 (counterexample): loading a store whose `FOOD:` line carries the
non-numeric calories field `abc` after a `DATE:` line does not complete:
`DataManager::loadData` calls `std::stoi` outside any try/catch, so no state
is produced at this input, contradicting the claimed zero-substitution. -/
theorem c1_nonnumeric_field_counterexample :
    ¬ ∃ st,
      loadData
        ["DATE: 01/01/2020".toList, "FOOD: Apple|abc|10|0|0|100".toList] =
        some st := by
  intro h
  obtain ⟨st, hst⟩ := h
  have hn :
      loadData
        ["DATE: 01/01/2020".toList, "FOOD: Apple|abc|10|0|0|100".toList] =
        none := by decide
  rw [hn] at hst
  exact Option.noConfusion hst

/-- C1 (amended): a `FOOD:` line with a non-numeric numeric field appearing
after a `DATE:` line makes `loadData` abort (uncaught `std::stoi`
exception); no food entry with a zero field is produced, and no subsequent
line is processed, whatever the rest of the file holds. -/
theorem c1_amended_nonnumeric_field_aborts (rest : List (List Char)) :
    loadData
      ("DATE: 01/01/2020".toList :: "FOOD: Apple|abc|10|0|0|100".toList ::
        rest) = none := by
  simp [loadData, loadLines, getRecordIdx]
  rw [show parseFood
      [' ', 'A', 'p', 'p', 'l', 'e', '|', 'a', 'b', 'c', '|', '1', '0', '|',
        '0', '|', '0', '|', '1', '0', '0'] = none from by decide]

/-- C2 (code-bug evidence): saving `roundTripDemoStore` and loading the
produced lines back yields a state whose only food is named `" Apple"` — the
`"FOOD: "` writer emits a space after the colon and `loadData` takes
`substr(5)` without trimming (unlike the `DATE:` branch), so the reloaded
state differs from the saved one. -/
theorem c2_roundtrip_leading_space :
    loadData (saveLines roundTripDemoStore) =
      some ⟨⟨2000, 250, 150, 70⟩,
        [⟨"01/01/2025".toList,
          [⟨' ' :: "Apple".toList, 52, 14, 0, 0, 100⟩]⟩]⟩ ∧
    loadData (saveLines roundTripDemoStore) ≠ some roundTripDemoStore := by
  constructor <;> decide

/-- C3: instantiating a template at an entered portion size scales every
nutrient by `(template value * grams) / 100` with C++ truncating integer
division and stores the entered grams; in particular the template
`{cal=52, carbs=14, protein=0, fat=0}` at `grams=150` yields
`{cal=78, carbs=21, protein=0, fat=0}`. -/
theorem c3_template_scaling :
    (∀ (tpl : Food) (grams : Int),
        instantiateTemplate tpl grams =
          ⟨tpl.name, Int.tdiv (tpl.calories * grams) 100,
            Int.tdiv (tpl.carbs * grams) 100,
            Int.tdiv (tpl.protein * grams) 100,
            Int.tdiv (tpl.fat * grams) 100, grams⟩) ∧
    instantiateTemplate ⟨"Rice".toList, 52, 14, 0, 0, 0⟩ 150 =
      ⟨"Rice".toList, 78, 21, 0, 0, 150⟩ := by
  constructor
  · intro tpl grams
    rfl
  · decide

/-- C6: in the calendar view, `h`/`l` move the selected day by ∓/±1 only
inside the current grid row: `h` is a no-op in the row's first column or on
day 1, `l` is a no-op in the row's last column or on the month's last day,
and an allowed move keeps the renderer's row index unchanged; in particular
with the 1st on weekday index 5, `h` from day 1 is a no-op. -/
theorem c6_calendar_row_moves (startWeekday daysInMonth selectedDay : Int)
    (hsw0 : 0 ≤ startWeekday) (hsw7 : startWeekday < 7)
    (hd1 : 1 ≤ selectedDay) (hdm : selectedDay ≤ daysInMonth) :
    ((calendarCol startWeekday selectedDay = 0 ∨ selectedDay = 1) →
        calendarLeft startWeekday selectedDay = selectedDay) ∧
    ((calendarCol startWeekday selectedDay = 6 ∨ selectedDay = daysInMonth) →
        calendarRight startWeekday daysInMonth selectedDay = selectedDay) ∧
    (calendarCol startWeekday selectedDay ≠ 0 → selectedDay ≠ 1 →
        calendarLeft startWeekday selectedDay = selectedDay - 1 ∧
        calendarRow startWeekday (selectedDay - 1) =
          calendarRow startWeekday selectedDay) ∧
    (calendarCol startWeekday selectedDay ≠ 6 → selectedDay ≠ daysInMonth →
        calendarRight startWeekday daysInMonth selectedDay = selectedDay + 1 ∧
        calendarRow startWeekday (selectedDay + 1) =
          calendarRow startWeekday selectedDay) ∧
    (startWeekday = 5 → calendarLeft startWeekday 1 = 1) := by
  simp only [calendarLeft, calendarRight, calendarCol, calendarRow]
  refine ⟨?_, ?_, ?_, ?_, ?_⟩ <;> (intros; split_ifs <;> omega)

/-- C6 witness: concrete month with the 1st on weekday index 5 (`Saturday`
start would be 6; index 5 is Friday), 31 days, cursor on day 1. -/
theorem c6_calendar_row_moves_witness :
    ((calendarCol 5 1 = 0 ∨ (1 : Int) = 1) → calendarLeft 5 1 = 1) ∧
    ((calendarCol 5 1 = 6 ∨ (1 : Int) = 31) → calendarRight 5 31 1 = 1) ∧
    (calendarCol 5 1 ≠ 0 → (1 : Int) ≠ 1 →
        calendarLeft 5 1 = 1 - 1 ∧ calendarRow 5 (1 - 1) = calendarRow 5 1) ∧
    (calendarCol 5 1 ≠ 6 → (1 : Int) ≠ 31 →
        calendarRight 5 31 1 = 1 + 1 ∧
        calendarRow 5 (1 + 1) = calendarRow 5 1) ∧
    ((5 : Int) = 5 → calendarLeft 5 1 = 1) :=
  c6_calendar_row_moves 5 31 1 (by decide) (by decide) (by decide) (by decide)

/-- C7 (counterexample): in the start-goals form a numeric field holding 5
is reset to 0 (not kept) when the captured input fails to parse. -/
theorem c7_start_goals_counterexample :
    startGoalsNumericCapture 5 "abc".toList = 0 ∧ (0 : Int) ≠ 5 := by
  decide

/-- C7 (amended): when the captured input fails integer parsing, the
add-custom-food, edit-food, create-template and reset-goals forms keep the
field's held value unchanged, while the start-goals form resets the field
to 0. -/
theorem c7_amended_parse_failure (old : Int) (input : List Char)
    (h : stoi input = none) :
    editFoodNumericCapture old input = old ∧
    addCustomNumericCapture old input = old ∧
    createTemplateNumericCapture old input = old ∧
    resetGoalsNumericCapture old input = old ∧
    startGoalsNumericCapture old input = 0 := by
  simp only [editFoodNumericCapture, addCustomNumericCapture,
    createTemplateNumericCapture, resetGoalsNumericCapture,
    startGoalsNumericCapture, h]
  split_ifs <;> simp

/-- C7 witness: the failing input `abc` on a field holding 7. -/
theorem c7_amended_parse_failure_witness :
    stoi "abc".toList = none ∧
    (editFoodNumericCapture 7 "abc".toList = 7 ∧
      addCustomNumericCapture 7 "abc".toList = 7 ∧
      createTemplateNumericCapture 7 "abc".toList = 7 ∧
      resetGoalsNumericCapture 7 "abc".toList = 7 ∧
      startGoalsNumericCapture 7 "abc".toList = 0) :=
  ⟨by decide, c7_amended_parse_failure 7 "abc".toList (by decide)⟩

/-- C8 (counterexample): the create-template name field stores a 22-character
input in full instead of truncating it to its first 21 characters. -/
theorem c8_create_template_counterexample :
    createTemplateNameCapture "Old".toList "ABCDEFGHIJKLMNOPQRSTUV".toList ≠
      ("ABCDEFGHIJKLMNOPQRSTUV".toList).take maxNameLen := by
  decide

/-- C8 (amended): input longer than 21 characters is truncated to its first
21 characters by the custom-food and edit-food name fields, while the
create-template name field stores the input untruncated. -/
theorem c8_amended_name_truncation (old input : List Char)
    (h : maxNameLen < input.length) :
    editFoodNameCapture old input = input.take maxNameLen ∧
    addCustomNameCapture old input = input.take maxNameLen ∧
    createTemplateNameCapture old input = input := by
  have hne : input ≠ [] := by
    intro he
    rw [he] at h
    simp [maxNameLen] at h
  simp [editFoodNameCapture, addCustomNameCapture, createTemplateNameCapture,
    hne, h]

/-- C8 witness: a 22-character input against a previously held name. -/
theorem c8_amended_name_truncation_witness :
    maxNameLen < ("ABCDEFGHIJKLMNOPQRSTUV".toList).length ∧
    (editFoodNameCapture "Old".toList "ABCDEFGHIJKLMNOPQRSTUV".toList =
        ("ABCDEFGHIJKLMNOPQRSTUV".toList).take maxNameLen ∧
      addCustomNameCapture "Old".toList "ABCDEFGHIJKLMNOPQRSTUV".toList =
        ("ABCDEFGHIJKLMNOPQRSTUV".toList).take maxNameLen ∧
      createTemplateNameCapture "Old".toList "ABCDEFGHIJKLMNOPQRSTUV".toList =
        "ABCDEFGHIJKLMNOPQRSTUV".toList) :=
  ⟨by decide,
    c8_amended_name_truncation "Old".toList "ABCDEFGHIJKLMNOPQRSTUV".toList
      (by decide)⟩

/-- C10: a day-shift key (`h` previous day, `l` next day) in the main view
resets the focused index to 0 and the food scroll offset to 0, whatever was
focused before. -/
theorem c10_dayshift_resets_selection (menuCount visibleSlots : Int)
    (key : Char) (s : MainState) (h : key = 'h' ∨ key = 'l') :
    (processInput menuCount visibleSlots key s).selectedIndex = 0 ∧
    (processInput menuCount visibleSlots key s).foodScrollOffset = 0 := by
  rcases h with rfl | rfl <;> simp [processInput]

/-- C10 witness: shifting the day while a food entry is focused and the list
is scrolled. -/
theorem c10_dayshift_resets_selection_witness :
    (processInput 4 10 'h'
        ⟨[⟨"A".toList, 1, 2, 3, 4, 5⟩], 4, 1, 0⟩).selectedIndex = 0 ∧
    (processInput 4 10 'h'
        ⟨[⟨"A".toList, 1, 2, 3, 4, 5⟩], 4, 1, 0⟩).foodScrollOffset = 0 :=
  c10_dayshift_resets_selection 4 10 'h'
    ⟨[⟨"A".toList, 1, 2, 3, 4, 5⟩], 4, 1, 0⟩ (Or.inl rfl)

/-- C9: deleting the focused food when it is the last entry of a non-empty
list drops one entry and moves focus to the new last food entry, or to the
last fixed action item when the list becomes empty; the focused index stays
inside `[0, menuCount + foodCount)`. -/
theorem c9_delete_last_entry (menuCount visibleSlots : Int) (s : MainState)
    (hmc : 0 < menuCount) (hne : s.foods ≠ [])
    (hidx : s.selectedIndex = menuCount + s.foods.length - 1) :
    (processInput menuCount visibleSlots 'x' s).foods.length =
        s.foods.length - 1 ∧
    ((processInput menuCount visibleSlots 'x' s).foods ≠ [] →
        (processInput menuCount visibleSlots 'x' s).selectedIndex =
          menuCount +
            (processInput menuCount visibleSlots 'x' s).foods.length - 1) ∧
    ((processInput menuCount visibleSlots 'x' s).foods = [] →
        (processInput menuCount visibleSlots 'x' s).selectedIndex =
          menuCount - 1) ∧
    0 ≤ (processInput menuCount visibleSlots 'x' s).selectedIndex ∧
    (processInput menuCount visibleSlots 'x' s).selectedIndex <
      menuCount + (processInput menuCount visibleSlots 'x' s).foods.length := by
  have hlen : 1 ≤ s.foods.length := List.length_pos.mpr hne
  have helen :
      (s.foods.eraseIdx (s.selectedIndex - menuCount).toNat).length =
        s.foods.length - 1 := by
    rw [List.length_eraseIdx, if_pos (by omega)]
  simp only [processInput]
  split_ifs <;>
    simp_all [← List.length_eq_zero] <;>
    omega

/-- C9 witness: a single-entry list with the entry focused; deletion empties
the list and focus lands on the last fixed action item (index 3). -/
theorem c9_delete_last_entry_witness :
    (processInput 4 10 'x'
        ⟨[⟨"A".toList, 1, 2, 3, 4, 5⟩], 4, 0, 0⟩).foods.length =
        [(⟨"A".toList, 1, 2, 3, 4, 5⟩ : Food)].length - 1 ∧
    ((processInput 4 10 'x' ⟨[⟨"A".toList, 1, 2, 3, 4, 5⟩], 4, 0, 0⟩).foods ≠
          [] →
        (processInput 4 10 'x'
            ⟨[⟨"A".toList, 1, 2, 3, 4, 5⟩], 4, 0, 0⟩).selectedIndex =
          4 + (processInput 4 10 'x'
              ⟨[⟨"A".toList, 1, 2, 3, 4, 5⟩], 4, 0, 0⟩).foods.length - 1) ∧
    ((processInput 4 10 'x' ⟨[⟨"A".toList, 1, 2, 3, 4, 5⟩], 4, 0, 0⟩).foods =
          [] →
        (processInput 4 10 'x'
            ⟨[⟨"A".toList, 1, 2, 3, 4, 5⟩], 4, 0, 0⟩).selectedIndex = 4 - 1) ∧
    0 ≤ (processInput 4 10 'x'
        ⟨[⟨"A".toList, 1, 2, 3, 4, 5⟩], 4, 0, 0⟩).selectedIndex ∧
    (processInput 4 10 'x'
        ⟨[⟨"A".toList, 1, 2, 3, 4, 5⟩], 4, 0, 0⟩).selectedIndex <
      4 + (processInput 4 10 'x'
          ⟨[⟨"A".toList, 1, 2, 3, 4, 5⟩], 4, 0, 0⟩).foods.length :=
  c9_delete_last_entry 4 10 ⟨[⟨"A".toList, 1, 2, 3, 4, 5⟩], 4, 0, 0⟩
    (by decide) (by decide) (by decide)

/-- The advance/retreat keys never touch the food list. -/
lemma processInput_jk_foods (mc vs : Int) (k : Char) (s : MainState)
    (hk : k = 'j' ∨ k = 'k') :
    (processInput mc vs k s).foods = s.foods := by
  rcases hk with rfl | rfl <;> simp [processInput]

/-- The advance/retreat keys never touch the food list, over a whole key
sequence. -/
lemma navigate_jk_foods (mc vs : Int) (keys : List Char) :
    ∀ s : MainState, (∀ k ∈ keys, k = 'j' ∨ k = 'k') →
      (navigate mc vs keys s).foods = s.foods := by
  induction keys with
  | nil => intro s _; rfl
  | cons k ks ih =>
    intro s hk
    have h1 : k = 'j' ∨ k = 'k' := hk k (List.mem_cons_self k ks)
    have h2 : ∀ x ∈ ks, x = 'j' ∨ x = 'k' :=
      fun x hx => hk x (List.mem_cons_of_mem k hx)
    have hstep :
        navigate mc vs (k :: ks) s =
          navigate mc vs ks (processInput mc vs k s) := rfl
    rw [hstep, ih _ h2, processInput_jk_foods mc vs k s h1]

/-- The focused index after an advance, in terms of the previous state. -/
lemma processInput_j_index (mc vs : Int) (s : MainState)
    (htot : 0 < mc + (s.foods.length : Int)) :
    (processInput mc vs 'j' s).selectedIndex =
      if s.selectedIndex < mc + (s.foods.length : Int) - 1 then
        s.selectedIndex + 1
      else 0 := by
  simp only [processInput]
  split_ifs <;> simp_all <;> omega

/-- The focused index after a retreat, in terms of the previous state. -/
lemma processInput_k_index (mc vs : Int) (s : MainState)
    (htot : 0 < mc + (s.foods.length : Int)) :
    (processInput mc vs 'k' s).selectedIndex =
      if s.selectedIndex > 0 then s.selectedIndex - 1
      else mc + (s.foods.length : Int) - 1 := by
  simp only [processInput]
  split_ifs <;> simp_all <;> omega

/-- The advance branch of `processInput`, written out. -/
lemma processInput_j_eq (mc vs : Int) (s : MainState) :
    processInput mc vs 'j' s =
      { s with
        selectedIndex :=
          if mc + (s.foods.length : Int) > 0 then
            if s.selectedIndex < mc + (s.foods.length : Int) - 1 then
              s.selectedIndex + 1
            else 0
          else s.selectedIndex,
        foodScrollOffset :=
          let idx :=
            if mc + (s.foods.length : Int) > 0 then
              if s.selectedIndex < mc + (s.foods.length : Int) - 1 then
                s.selectedIndex + 1
              else 0
            else s.selectedIndex
          if idx < mc then 0
          else
            if idx ≥ mc then
              if idx - mc ≥ vs + s.foodScrollOffset then idx - mc - vs + 1
              else s.foodScrollOffset
            else s.foodScrollOffset } := by
  rfl

/-- The retreat branch of `processInput`, written out. -/
lemma processInput_k_eq (mc vs : Int) (s : MainState) :
    processInput mc vs 'k' s =
      { s with
        selectedIndex :=
          if mc + (s.foods.length : Int) > 0 then
            if s.selectedIndex > 0 then s.selectedIndex - 1
            else mc + (s.foods.length : Int) - 1
          else s.selectedIndex,
        foodScrollOffset :=
          let idx :=
            if mc + (s.foods.length : Int) > 0 then
              if s.selectedIndex > 0 then s.selectedIndex - 1
              else mc + (s.foods.length : Int) - 1
            else s.selectedIndex
          if idx < mc then 0
          else
            if idx ≥ mc then
              if idx = mc + (s.foods.length : Int) - 1 then
                if (s.foods.length : Int) > vs then (s.foods.length : Int) - vs
                else 0
              else
                if idx - mc < s.foodScrollOffset then idx - mc
                else s.foodScrollOffset
            else s.foodScrollOffset } := by
  rfl

/-- One advance or retreat preserves the joint selection/scroll invariant. -/
lemma processInput_jk_inv (mc vs : Int) (k : Char) (s : MainState)
    (hk : k = 'j' ∨ k = 'k') (hmc : 0 < mc) (hvs : 0 ≤ vs)
    (h0 : 0 ≤ s.selectedIndex) (h1 : s.selectedIndex < mc + s.foods.length)
    (h2 : 0 ≤ s.foodScrollOffset)
    (h3 : s.foodScrollOffset ≤ max 0 ((s.foods.length : Int) - vs)) :
    0 ≤ (processInput mc vs k s).selectedIndex ∧
    (processInput mc vs k s).selectedIndex < mc + s.foods.length ∧
    0 ≤ (processInput mc vs k s).foodScrollOffset ∧
    (processInput mc vs k s).foodScrollOffset ≤
      max 0 ((s.foods.length : Int) - vs) := by
  rcases hk with rfl | rfl
  · rw [processInput_j_eq]
    simp only []
    split_ifs <;> refine ⟨by omega, by omega, by omega, by omega⟩
  · rw [processInput_k_eq]
    simp only []
    split_ifs <;> refine ⟨by omega, by omega, by omega, by omega⟩

/-- Any advance/retreat sequence preserves the joint selection/scroll
invariant. -/
lemma navigate_jk_inv (mc vs : Int) (keys : List Char) :
    ∀ s : MainState, (∀ k ∈ keys, k = 'j' ∨ k = 'k') → 0 < mc → 0 ≤ vs →
      0 ≤ s.selectedIndex → s.selectedIndex < mc + s.foods.length →
      0 ≤ s.foodScrollOffset →
      s.foodScrollOffset ≤ max 0 ((s.foods.length : Int) - vs) →
      0 ≤ (navigate mc vs keys s).selectedIndex ∧
      (navigate mc vs keys s).selectedIndex < mc + s.foods.length ∧
      0 ≤ (navigate mc vs keys s).foodScrollOffset ∧
      (navigate mc vs keys s).foodScrollOffset ≤
        max 0 ((s.foods.length : Int) - vs) := by
  induction keys with
  | nil => intro s _ _ _ h0 h1 h2 h3; exact ⟨h0, h1, h2, h3⟩
  | cons k ks ih =>
    intro s hk hmc hvs h0 h1 h2 h3
    have hk1 : k = 'j' ∨ k = 'k' := hk k (List.mem_cons_self k ks)
    have hk2 : ∀ x ∈ ks, x = 'j' ∨ x = 'k' :=
      fun x hx => hk x (List.mem_cons_of_mem k hx)
    have hstep :
        navigate mc vs (k :: ks) s =
          navigate mc vs ks (processInput mc vs k s) := rfl
    have hfoods := processInput_jk_foods mc vs k s hk1
    obtain ⟨g0, g1, g2, g3⟩ :=
      processInput_jk_inv mc vs k s hk1 hmc hvs h0 h1 h2 h3
    have := ih (processInput mc vs k s) hk2 hmc hvs g0 (by rw [hfoods]; exact g1)
      g2 (by rw [hfoods]; exact g3)
    rw [hstep]
    rw [hfoods] at this
    exact this

/-- Advancing `n ≤ totalSelectable` times adds `n` to the focused index,
wrapping once past the end. -/
lemma navigate_replicate_j_index (mc vs : Int) :
    ∀ (n : Nat) (s : MainState), 0 ≤ s.selectedIndex →
      s.selectedIndex < mc + s.foods.length →
      (n : Int) ≤ mc + s.foods.length →
      (navigate mc vs (List.replicate n 'j') s).selectedIndex =
        if s.selectedIndex + n < mc + s.foods.length then s.selectedIndex + n
        else s.selectedIndex + n - (mc + s.foods.length) := by
  intro n
  induction n with
  | zero =>
    intro s h0 h1 _
    have hz : navigate mc vs (List.replicate 0 'j') s = s := rfl
    rw [hz, if_pos (by push_cast; omega)]
    push_cast
    omega
  | succ n ih =>
    intro s h0 h1 hn
    have htot : 0 < mc + (s.foods.length : Int) := by omega
    have hstep :
        navigate mc vs (List.replicate (n + 1) 'j') s =
          navigate mc vs (List.replicate n 'j') (processInput mc vs 'j' s) :=
      rfl
    have hfoods := processInput_jk_foods mc vs 'j' s (Or.inl rfl)
    have hidx := processInput_j_index mc vs s htot
    have hb0 : 0 ≤ (processInput mc vs 'j' s).selectedIndex := by
      rw [hidx]; split_ifs <;> omega
    have hb1 :
        (processInput mc vs 'j' s).selectedIndex <
          mc + (processInput mc vs 'j' s).foods.length := by
      rw [hidx, hfoods]; split_ifs <;> omega
    have hn' : (n : Int) ≤ mc + (processInput mc vs 'j' s).foods.length := by
      rw [hfoods]; push_cast at hn ⊢; omega
    rw [hstep, ih (processInput mc vs 'j' s) hb0 hb1 hn', hfoods, hidx]
    push_cast at hn ⊢
    split_ifs <;> omega

/-- Bounds on the focused index are preserved by any advance/retreat
sequence, assuming only a positive selectable count. -/
lemma navigate_jk_index_bounds (mc vs : Int) (keys : List Char) :
    ∀ s : MainState, (∀ k ∈ keys, k = 'j' ∨ k = 'k') →
      0 < mc + (s.foods.length : Int) →
      0 ≤ s.selectedIndex → s.selectedIndex < mc + s.foods.length →
      0 ≤ (navigate mc vs keys s).selectedIndex ∧
        (navigate mc vs keys s).selectedIndex < mc + s.foods.length := by
  induction keys with
  | nil => intro s _ _ h0 h1; exact ⟨h0, h1⟩
  | cons k ks ih =>
    intro s hk htot h0 h1
    have hk1 : k = 'j' ∨ k = 'k' := hk k (List.mem_cons_self k ks)
    have hk2 : ∀ x ∈ ks, x = 'j' ∨ x = 'k' :=
      fun x hx => hk x (List.mem_cons_of_mem k hx)
    have hfoods := processInput_jk_foods mc vs k s hk1
    have hb : 0 ≤ (processInput mc vs k s).selectedIndex ∧
        (processInput mc vs k s).selectedIndex < mc + s.foods.length := by
      rcases hk1 with rfl | rfl
      · rw [processInput_j_index mc vs s htot]
        constructor <;> (split_ifs <;> omega)
      · rw [processInput_k_index mc vs s htot]
        constructor <;> (split_ifs <;> omega)
    have hstep :
        navigate mc vs (k :: ks) s =
          navigate mc vs ks (processInput mc vs k s) := rfl
    have hrest := ih (processInput mc vs k s) hk2 (by rw [hfoods]; exact htot)
      hb.1 (by rw [hfoods]; exact hb.2)
    rw [hstep]
    rw [hfoods] at hrest
    exact hrest

/-- C4: with a positive selectable count and a focused index in range, every
advance/retreat sequence keeps the focused index in `[0, totalSelectable)`;
an advance from the last index wraps to 0, a retreat from 0 wraps to the
last index, and advancing exactly `totalSelectable` times restores the
original index. -/
theorem c4_selection_invariant (mc vs : Int) (s : MainState)
    (keys : List Char)
    (htot : 0 < mc + (s.foods.length : Int))
    (h0 : 0 ≤ s.selectedIndex) (h1 : s.selectedIndex < mc + s.foods.length)
    (hkeys : ∀ k ∈ keys, k = 'j' ∨ k = 'k') :
    (0 ≤ (navigate mc vs keys s).selectedIndex ∧
      (navigate mc vs keys s).selectedIndex < mc + s.foods.length) ∧
    (s.selectedIndex = mc + s.foods.length - 1 →
      (processInput mc vs 'j' s).selectedIndex = 0) ∧
    (s.selectedIndex = 0 →
      (processInput mc vs 'k' s).selectedIndex = mc + s.foods.length - 1) ∧
    (navigate mc vs
        (List.replicate (mc + (s.foods.length : Int)).toNat 'j')
        s).selectedIndex = s.selectedIndex := by
  refine ⟨navigate_jk_index_bounds mc vs keys s hkeys htot h0 h1, ?_, ?_, ?_⟩
  · intro hlast
    rw [processInput_j_index mc vs s htot, if_neg (by omega)]
  · intro hzero
    rw [processInput_k_index mc vs s htot, if_neg (by omega)]
  · rw [navigate_replicate_j_index mc vs (mc + (s.foods.length : Int)).toNat s
      h0 h1 (by omega), if_neg (by omega)]
    omega

/-- C4 witness: the invariant at `menuCount = 4`, one food,
`visibleSlots = 10`, focus on index 2, and the sequence advance, retreat,
advance. -/
theorem c4_selection_invariant_witness :
    (0 ≤ (navigate 4 10 ['j', 'k', 'j'] demoMainState).selectedIndex ∧
      (navigate 4 10 ['j', 'k', 'j'] demoMainState).selectedIndex <
        4 + demoMainState.foods.length) ∧
    (demoMainState.selectedIndex = 4 + demoMainState.foods.length - 1 →
      (processInput 4 10 'j' demoMainState).selectedIndex = 0) ∧
    (demoMainState.selectedIndex = 0 →
      (processInput 4 10 'k' demoMainState).selectedIndex =
        4 + demoMainState.foods.length - 1) ∧
    (navigate 4 10
        (List.replicate (4 + (demoMainState.foods.length : Int)).toNat 'j')
        demoMainState).selectedIndex = demoMainState.selectedIndex :=
  c4_selection_invariant 4 10 demoMainState ['j', 'k', 'j'] (by decide)
    (by decide) (by decide) (by decide)

/-- C5: starting from scroll offset 0 with the focused index in range, any
advance/retreat sequence keeps the food scroll offset within
`[0, max 0 (foodCount - visibleSlots)]`. -/
theorem c5_scroll_clamped (mc vs : Int) (s : MainState) (keys : List Char)
    (hmc : 0 < mc) (hvs : 0 ≤ vs)
    (h0 : 0 ≤ s.selectedIndex) (h1 : s.selectedIndex < mc + s.foods.length)
    (hoff : s.foodScrollOffset = 0)
    (hkeys : ∀ k ∈ keys, k = 'j' ∨ k = 'k') :
    0 ≤ (navigate mc vs keys s).foodScrollOffset ∧
    (navigate mc vs keys s).foodScrollOffset ≤
      max 0 ((s.foods.length : Int) - vs) := by
  have h := navigate_jk_inv mc vs keys s hkeys hmc hvs h0 h1 (by omega)
    (by rw [hoff]; exact le_max_left _ _)
  exact ⟨h.2.2.1, h.2.2.2⟩

/-- C5 witness: three foods, one visible slot, four advances in a row. -/
theorem c5_scroll_clamped_witness :
    0 ≤ (navigate 4 1 ['j', 'j', 'j', 'j'] demoScrollState).foodScrollOffset ∧
    (navigate 4 1 ['j', 'j', 'j', 'j'] demoScrollState).foodScrollOffset ≤
      max 0 ((demoScrollState.foods.length : Int) - 1) :=
  c5_scroll_clamped 4 1 demoScrollState ['j', 'j', 'j', 'j'] (by decide)
    (by decide) (by decide) (by decide) (by decide) (by decide)
